import Mathlib

/-
Verification of the page-based medical-report extraction and storage pipeline
(src/data.py, src/page_processor.py).  Python values carried through the
flatten/group/store pipeline are modelled by the sum type PyVal; Python floats
are carried opaquely (the pipeline never computes with them).  Machine-level
behaviour (actual MySQL, the LLM transport) is modelled by explicit outcome
parameters, mirroring the control flow of the source.
-/

set_option maxRecDepth 20000
set_option maxHeartbeats 2000000

namespace LocalLLMOCR

/-- Python float object, carried opaquely by its repr string: the pipeline only
moves float field values around and never does arithmetic on them. -/
structure PyFloat where
  rep : String
deriving DecidableEq, Repr

/-- A Python runtime value as it occurs in the flat row and grouped tables:
str, int, bool, float, or None. -/
inductive PyVal where
  | str (s : String)
  | int (n : Int)
  | bool (b : Bool)
  | float (f : PyFloat)
  | none
deriving DecidableEq, Repr

/-- Page 0 record (source: class Page0Data in src/data.py). String fields stand for
both plain str fields and the runtime values of Literal["Yes", "No"] fields. -/
structure Page0Data where
  reference_number : String
  name_of_life_to_be_insured : String
deriving DecidableEq, Repr

/-- Page 1 record (source: class Page1Data in src/data.py). String fields stand for
both plain str fields and the runtime values of Literal["Yes", "No"] fields. -/
structure Page1Data where
  address : String
  suburb : String
  state : String
  postcode : String
  date_of_birth : String
  occupation : String
  licence_number : String
  passport_number : String
  other_id : String
  has_circulatory_system_disorder : String
  has_diabetes_or_high_blood_sugar : String
  has_genitourinary_disorder : String
  has_digestive_system_disorder : String
  has_cancer_or_tumour : String
  has_respiratory_disorder : String
  has_neurological_condition : String
  has_neurological_symptoms : String
  has_eye_or_ear_disorder : String
  has_skin_condition : String
  has_back_or_neck_pain : String
  has_joint_bone_or_muscle_disorder : String
deriving DecidableEq, Repr

/-- Page 2 record (source: class Page2Data in src/data.py). String fields stand for
both plain str fields and the runtime values of Literal["Yes", "No"] fields. -/
structure Page2Data where
  has_arthritis_or_osteoporosis_or_gout : String
  has_blood_disorder : String
  has_thyroid_disorder_or_lupus : String
  has_mental_or_nervous_condition : String
  has_female_reproductive_disorder_or_pregnancy : String
  pregnant_expected_date : String
  has_pregnancy_complications : String
  has_substance_or_alcohol_use_history : String
  has_positive_hiv_or_hepatitis_test : String
  has_high_risk_hiv_exposure_history : String
  has_absence_from_work_due_to_illness_or_injury : String
  has_undiagnosed_symptoms_or_condition : String
  has_recent_medication_prescribed : String
  has_recent_medical_tests : String
  has_genetic_testing_history_or_intention : String
  plans_future_medical_advice_or_treatment : String
  medical_history_details : String
deriving DecidableEq, Repr

/-- Page 3 record (source: class Page3Data in src/data.py). String fields stand for
both plain str fields and the runtime values of Literal["Yes", "No"] fields. -/
structure Page3Data where
  family_history : String
  family_history_heart_disease : String
  family_history_cardiomyopathy : String
  family_history_breast_cancer : String
  family_history_bowel_cancer : String
  family_history_other_cancer : String
  family_history_diabetes : String
  family_history_type_1_diabetes : String
  family_history_type_2_diabetes : String
  family_history_alzheimer_disease : String
  family_history_multiple_sclerosis : String
  family_history_other_hereditary_disease : String
  family_history_relationship_1 : String
  family_history_medical_condition_1 : String
  family_history_age_when_diagnosed_1 : String
  family_history_age_at_death_1 : String
  family_history_relationship_2 : String
  family_history_medical_condition_2 : String
  family_history_age_when_diagnosed_2 : String
  family_history_age_at_death_2 : String
  family_history_relationship_3 : String
  family_history_medical_condition_3 : String
  family_history_age_when_diagnosed_3 : String
  family_history_age_at_death_3 : String
  known_to_examiner : String
  previously_attended_examiner : String
  unusual_build_or_behavior : String
  signs_of_tobacco_alcohol_or_drugs : String
  ever_smoked : String
  height_cm : Int
  height_feet : Int
  height_inches : Int
  weight_kg : Int
  weight_stone : Int
  weight_lbs : Int
  chest_full_inspiration_cm : Int
  chest_full_inspiration_inches : Int
  chest_full_expiration_cm : Int
  chest_full_expiration_inches : Int
  waist_circumference_cm : Int
  waist_circumference_inches : Int
  hips_circumference_cm : Int
  hips_circumference_inches : Int
deriving DecidableEq, Repr

/-- Page 4 record (source: class Page4Data in src/data.py). String fields stand for
both plain str fields and the runtime values of Literal["Yes", "No"] fields. -/
structure Page4Data where
  recent_weight_variation : String
  weight_variation_details : String
  chest_expansion_details : String
  respiratory_abnormality : String
  respiratory_fabnormality_details : String
  respiratory_sign : String
  respiratory_sign_details : String
  pulse_rate_and_character : String
  apex_interspace_position : String
  apex_distance_from_midsternal : PyFloat
  cardiac_enlargement : String
  cardiac_enlargement_details : String
  abnormal_heart_sounds_or_rhythm : String
  abnormal_heart_sounds_or_rhythm_details : String
deriving DecidableEq, Repr

/-- Page 5 record (source: class Page5Data in src/data.py). String fields stand for
both plain str fields and the runtime values of Literal["Yes", "No"] fields. -/
structure Page5Data where
  murmurs : String
  murmurs_details : String
  bp_Systolic_1 : Int
  bp_Diastolic_1 : Int
  bp_Systolic_2 : Int
  bp_Diastolic_2 : Int
  bp_Systolic_3 : Int
  bp_Diastolic_3 : Int
  peripheral_abnormalities : String
  peripheral_abnormalities_details : String
  heart_and_vascular_system_abnormal : String
  heart_and_vascular_system_abnormal_details : String
  on_treatment_for_hypertension : String
  hypertension_pretreatment_bp : String
  hypertension_duration : String
  hypertension_treatment_nature : String
  tongue_mouth_throat_abnormality : String
  tongue_mouth_throat_abnormality_details : String
  liver_spleen_abdominal_abnormality : String
  liver_spleen_abdominal_abnormality_details : String
deriving DecidableEq, Repr

/-- Page 6 record (source: class Page6Data in src/data.py). String fields stand for
both plain str fields and the runtime values of Literal["Yes", "No"] fields. -/
structure Page6Data where
  hernia_present : String
  hernia_details : String
  lymph_gland_abnormality : String
  lymph_gland_abnormality_details : String
  genito_urinary_abnormality : String
  genito_urinary_abnormality_details : String
  urine_protein : String
  urine_sugar : String
  urine_blood : String
  urine_blood_menstruating : String
  urine_other_abnormalities : String
  urine_other_abnormalities_details : String
  is_pregnant : String
  expected_pregnant_delivery_date : String
  vision_defect_or_eye_abnormality : String
  vision_defect_or_eye_abnormality_details : String
  hearing_or_speech_defect : String
  hearing_or_speech_defect_details : String
deriving DecidableEq, Repr

/-- Page 7 record (source: class Page7Data in src/data.py). String fields stand for
both plain str fields and the runtime values of Literal["Yes", "No"] fields. -/
structure Page7Data where
  ear_discharge_or_deafness_auriscopic_examination_details : String
  mental_abnormality : String
  mental_abnormality_details : String
  central_or_peripheral_disorder : String
  central_or_peripheral_disorder_details : String
  joint_abnormality : String
  joint_abnormality_details : String
  muscle_or_connective_tissue_abnormality : String
  muscle_or_connective_tissue_abnormality_details : String
  back_or_neck_abnormality : String
  back_or_neck_abnormality_details : String
  skin_disorder : String
  skin_disorder_details : String
deriving DecidableEq, Repr

/-- Page 8 record (source: class Page8Data in src/data.py). String fields stand for
both plain str fields and the runtime values of Literal["Yes", "No"] fields. -/
structure Page8Data where
  medical_attendants_reports_required : String
  medical_attendants_reports_details : String
  likely_to_require_surgery : String
  likely_to_require_surgery_details : String
  unfavourable_history_personal_or_family : String
  unfavourable_findings_medical_exam : String
  examiner_name : String
  examiner_address : String
  examiner_suburb : String
  examiner_state : String
  examiner_postcode : String
  examiner_phone : String
  examiner_personal_qualifications : String
deriving DecidableEq, Repr
/-- Aggregate report: one optional record per page 0-8
(source: class PageBasedMedicalReportData, src/data.py:1031-1041). -/
structure PageBasedMedicalReportData where
  page_0 : Option Page0Data := Option.none
  page_1 : Option Page1Data := Option.none
  page_2 : Option Page2Data := Option.none
  page_3 : Option Page3Data := Option.none
  page_4 : Option Page4Data := Option.none
  page_5 : Option Page5Data := Option.none
  page_6 : Option Page6Data := Option.none
  page_7 : Option Page7Data := Option.none
  page_8 : Option Page8Data := Option.none
deriving DecidableEq, Repr

/-- PageBasedMedicalReportData() with all slots at their defaults (None). -/
def emptyReport : PageBasedMedicalReportData := {}

/-- The reference_number property (src/data.py:1044-1046):
page_0.reference_number if page_0 else "". -/
def refNum (r : PageBasedMedicalReportData) : String :=
  match r.page_0 with
  | some p => p.reference_number
  | Option.none => ""

/-- Flat row produced by PageBasedMedicalReportData.to_csv_records (src/data.py:1052-1270):
each present page contributes its block of key-value pairs; absent pages contribute nothing.
All 161 keys are pairwise distinct, so first-match association lookup agrees with the
Python dict built by successive record.update calls. -/
def to_csv_records (r : PageBasedMedicalReportData) : List (String × PyVal) :=
  (match r.page_0 with
    | Option.none => []
    | some p =>
      [("reference_number", PyVal.str p.reference_number),
  ("name_of_life_to_be_insured", PyVal.str p.name_of_life_to_be_insured)])
  ++ (match r.page_1 with
    | Option.none => []
    | some p =>
      [("address", PyVal.str p.address),
  ("suburb", PyVal.str p.suburb),
  ("state", PyVal.str p.state),
  ("postcode", PyVal.str p.postcode),
  ("date_of_birth", PyVal.str p.date_of_birth),
  ("occupation", PyVal.str p.occupation),
  ("licence_number", PyVal.str p.licence_number),
  ("passport_number", PyVal.str p.passport_number),
  ("other_id", PyVal.str p.other_id),
  ("has_circulatory_system_disorder", PyVal.str p.has_circulatory_system_disorder),
  ("has_diabetes_or_high_blood_sugar", PyVal.str p.has_diabetes_or_high_blood_sugar),
  ("has_genitourinary_disorder", PyVal.str p.has_genitourinary_disorder),
  ("has_digestive_system_disorder", PyVal.str p.has_digestive_system_disorder),
  ("has_cancer_or_tumour", PyVal.str p.has_cancer_or_tumour),
  ("has_respiratory_disorder", PyVal.str p.has_respiratory_disorder),
  ("has_neurological_condition", PyVal.str p.has_neurological_condition),
  ("has_neurological_symptoms", PyVal.str p.has_neurological_symptoms),
  ("has_eye_or_ear_disorder", PyVal.str p.has_eye_or_ear_disorder),
  ("has_skin_condition", PyVal.str p.has_skin_condition),
  ("has_back_or_neck_pain", PyVal.str p.has_back_or_neck_pain),
  ("has_joint_bone_or_muscle_disorder", PyVal.str p.has_joint_bone_or_muscle_disorder)])
  ++ (match r.page_2 with
    | Option.none => []
    | some p =>
      [("has_arthritis_or_osteoporosis_or_gout", PyVal.str p.has_arthritis_or_osteoporosis_or_gout),
  ("has_blood_disorder", PyVal.str p.has_blood_disorder),
  ("has_thyroid_disorder_or_lupus", PyVal.str p.has_thyroid_disorder_or_lupus),
  ("has_mental_or_nervous_condition", PyVal.str p.has_mental_or_nervous_condition),
  ("has_female_reproductive_disorder_or_pregnancy", PyVal.str p.has_female_reproductive_disorder_or_pregnancy),
  ("pregnant_expected_date", PyVal.str p.pregnant_expected_date),
  ("has_pregnancy_complications", PyVal.str p.has_pregnancy_complications),
  ("has_substance_or_alcohol_use_history", PyVal.str p.has_substance_or_alcohol_use_history),
  ("has_positive_hiv_or_hepatitis_test", PyVal.str p.has_positive_hiv_or_hepatitis_test),
  ("has_high_risk_hiv_exposure_history", PyVal.str p.has_high_risk_hiv_exposure_history),
  ("has_absence_from_work_due_to_illness_or_injury", PyVal.str p.has_absence_from_work_due_to_illness_or_injury),
  ("has_undiagnosed_symptoms_or_condition", PyVal.str p.has_undiagnosed_symptoms_or_condition),
  ("has_recent_medication_prescribed", PyVal.str p.has_recent_medication_prescribed),
  ("has_recent_medical_tests", PyVal.str p.has_recent_medical_tests),
  ("has_genetic_testing_history_or_intention", PyVal.str p.has_genetic_testing_history_or_intention),
  ("plans_future_medical_advice_or_treatment", PyVal.str p.plans_future_medical_advice_or_treatment),
  ("medical_history_details", PyVal.str p.medical_history_details)])
  ++ (match r.page_3 with
    | Option.none => []
    | some p =>
      [("family_history", PyVal.str p.family_history),
  ("family_history_heart_disease", PyVal.str p.family_history_heart_disease),
  ("family_history_cardiomyopathy", PyVal.str p.family_history_cardiomyopathy),
  ("family_history_breast_cancer", PyVal.str p.family_history_breast_cancer),
  ("family_history_bowel_cancer", PyVal.str p.family_history_bowel_cancer),
  ("family_history_other_cancer", PyVal.str p.family_history_other_cancer),
  ("family_history_diabetes", PyVal.str p.family_history_diabetes),
  ("family_history_type_1_diabetes", PyVal.str p.family_history_type_1_diabetes),
  ("family_history_type_2_diabetes", PyVal.str p.family_history_type_2_diabetes),
  ("family_history_alzheimer_disease", PyVal.str p.family_history_alzheimer_disease),
  ("family_history_multiple_sclerosis", PyVal.str p.family_history_multiple_sclerosis),
  ("family_history_other_hereditary_disease", PyVal.str p.family_history_other_hereditary_disease),
  ("family_history_relationship_1", PyVal.str p.family_history_relationship_1),
  ("family_history_medical_condition_1", PyVal.str p.family_history_medical_condition_1),
  ("family_history_age_when_diagnosed_1", PyVal.str p.family_history_age_when_diagnosed_1),
  ("family_history_age_at_death_1", PyVal.str p.family_history_age_at_death_1),
  ("family_history_relationship_2", PyVal.str p.family_history_relationship_2),
  ("family_history_medical_condition_2", PyVal.str p.family_history_medical_condition_2),
  ("family_history_age_when_diagnosed_2", PyVal.str p.family_history_age_when_diagnosed_2),
  ("family_history_age_at_death_2", PyVal.str p.family_history_age_at_death_2),
  ("family_history_relationship_3", PyVal.str p.family_history_relationship_3),
  ("family_history_medical_condition_3", PyVal.str p.family_history_medical_condition_3),
  ("family_history_age_when_diagnosed_3", PyVal.str p.family_history_age_when_diagnosed_3),
  ("family_history_age_at_death_3", PyVal.str p.family_history_age_at_death_3),
  ("known_to_examiner", PyVal.str p.known_to_examiner),
  ("previously_attended_examiner", PyVal.str p.previously_attended_examiner),
  ("unusual_build_or_behavior", PyVal.str p.unusual_build_or_behavior),
  ("signs_of_tobacco_alcohol_or_drugs", PyVal.str p.signs_of_tobacco_alcohol_or_drugs),
  ("ever_smoked", PyVal.str p.ever_smoked),
  ("height_cm", PyVal.int p.height_cm),
  ("height_feet", PyVal.int p.height_feet),
  ("height_inches", PyVal.int p.height_inches),
  ("weight_kg", PyVal.int p.weight_kg),
  ("weight_stone", PyVal.int p.weight_stone),
  ("weight_lbs", PyVal.int p.weight_lbs),
  ("chest_full_inspiration_cm", PyVal.int p.chest_full_inspiration_cm),
  ("chest_full_inspiration_inches", PyVal.int p.chest_full_inspiration_inches),
  ("chest_full_expiration_cm", PyVal.int p.chest_full_expiration_cm),
  ("chest_full_expiration_inches", PyVal.int p.chest_full_expiration_inches),
  ("waist_circumference_cm", PyVal.int p.waist_circumference_cm),
  ("waist_circumference_inches", PyVal.int p.waist_circumference_inches),
  ("hips_circumference_cm", PyVal.int p.hips_circumference_cm),
  ("hips_circumference_inches", PyVal.int p.hips_circumference_inches)])
  ++ (match r.page_4 with
    | Option.none => []
    | some p =>
      [("recent_weight_variation", PyVal.str p.recent_weight_variation),
  ("weight_variation_details", PyVal.str p.weight_variation_details),
  ("chest_expansion_details", PyVal.str p.chest_expansion_details),
  ("respiratory_abnormality", PyVal.str p.respiratory_abnormality),
  ("respiratory_fabnormality_details", PyVal.str p.respiratory_fabnormality_details),
  ("respiratory_sign", PyVal.str p.respiratory_sign),
  ("respiratory_sign_details", PyVal.str p.respiratory_sign_details),
  ("pulse_rate_and_character", PyVal.str p.pulse_rate_and_character),
  ("apex_interspace_position", PyVal.str p.apex_interspace_position),
  ("apex_distance_from_midsternal", PyVal.float p.apex_distance_from_midsternal),
  ("cardiac_enlargement", PyVal.str p.cardiac_enlargement),
  ("cardiac_enlargement_details", PyVal.str p.cardiac_enlargement_details),
  ("abnormal_heart_sounds_or_rhythm", PyVal.str p.abnormal_heart_sounds_or_rhythm),
  ("abnormal_heart_sounds_or_rhythm_details", PyVal.str p.abnormal_heart_sounds_or_rhythm_details)])
  ++ (match r.page_5 with
    | Option.none => []
    | some p =>
      [("murmurs", PyVal.str p.murmurs),
  ("murmurs_details", PyVal.str p.murmurs_details),
  ("bp_Systolic_1", PyVal.int p.bp_Systolic_1),
  ("bp_Diastolic_1", PyVal.int p.bp_Diastolic_1),
  ("bp_Systolic_2", PyVal.int p.bp_Systolic_2),
  ("bp_Diastolic_2", PyVal.int p.bp_Diastolic_2),
  ("bp_Systolic_3", PyVal.int p.bp_Systolic_3),
  ("bp_Diastolic_3", PyVal.int p.bp_Diastolic_3),
  ("peripheral_abnormalities", PyVal.str p.peripheral_abnormalities),
  ("peripheral_abnormalities_details", PyVal.str p.peripheral_abnormalities_details),
  ("heart_and_vascular_system_abnormal", PyVal.str p.heart_and_vascular_system_abnormal),
  ("heart_and_vascular_system_abnormal_details", PyVal.str p.heart_and_vascular_system_abnormal_details),
  ("on_treatment_for_hypertension", PyVal.str p.on_treatment_for_hypertension),
  ("hypertension_pretreatment_bp", PyVal.str p.hypertension_pretreatment_bp),
  ("hypertension_duration", PyVal.str p.hypertension_duration),
  ("hypertension_treatment_nature", PyVal.str p.hypertension_treatment_nature),
  ("tongue_mouth_throat_abnormality", PyVal.str p.tongue_mouth_throat_abnormality),
  ("tongue_mouth_throat_abnormality_details", PyVal.str p.tongue_mouth_throat_abnormality_details),
  ("liver_spleen_abdominal_abnormality", PyVal.str p.liver_spleen_abdominal_abnormality),
  ("liver_spleen_abdominal_abnormality_details", PyVal.str p.liver_spleen_abdominal_abnormality_details)])
  ++ (match r.page_6 with
    | Option.none => []
    | some p =>
      [("hernia_present", PyVal.str p.hernia_present),
  ("hernia_details", PyVal.str p.hernia_details),
  ("lymph_gland_abnormality", PyVal.str p.lymph_gland_abnormality),
  ("lymph_gland_abnormality_details", PyVal.str p.lymph_gland_abnormality_details),
  ("genito_urinary_abnormality", PyVal.str p.genito_urinary_abnormality),
  ("genito_urinary_abnormality_details", PyVal.str p.genito_urinary_abnormality_details),
  ("urine_protein", PyVal.str p.urine_protein),
  ("urine_sugar", PyVal.str p.urine_sugar),
  ("urine_blood", PyVal.str p.urine_blood),
  ("urine_blood_menstruating", PyVal.str p.urine_blood_menstruating),
  ("urine_other_abnormalities", PyVal.str p.urine_other_abnormalities),
  ("urine_other_abnormalities_details", PyVal.str p.urine_other_abnormalities_details),
  ("is_pregnant", PyVal.str p.is_pregnant),
  ("expected_pregnant_delivery_date", PyVal.str p.expected_pregnant_delivery_date),
  ("vision_defect_or_eye_abnormality", PyVal.str p.vision_defect_or_eye_abnormality),
  ("vision_defect_or_eye_abnormality_details", PyVal.str p.vision_defect_or_eye_abnormality_details),
  ("hearing_or_speech_defect", PyVal.str p.hearing_or_speech_defect),
  ("hearing_or_speech_defect_details", PyVal.str p.hearing_or_speech_defect_details)])
  ++ (match r.page_7 with
    | Option.none => []
    | some p =>
      [("ear_discharge_or_deafness_auriscopic_examination_details", PyVal.str p.ear_discharge_or_deafness_auriscopic_examination_details),
  ("mental_abnormality", PyVal.str p.mental_abnormality),
  ("mental_abnormality_details", PyVal.str p.mental_abnormality_details),
  ("central_or_peripheral_disorder", PyVal.str p.central_or_peripheral_disorder),
  ("central_or_peripheral_disorder_details", PyVal.str p.central_or_peripheral_disorder_details),
  ("joint_abnormality", PyVal.str p.joint_abnormality),
  ("joint_abnormality_details", PyVal.str p.joint_abnormality_details),
  ("muscle_or_connective_tissue_abnormality", PyVal.str p.muscle_or_connective_tissue_abnormality),
  ("muscle_or_connective_tissue_abnormality_details", PyVal.str p.muscle_or_connective_tissue_abnormality_details),
  ("back_or_neck_abnormality", PyVal.str p.back_or_neck_abnormality),
  ("back_or_neck_abnormality_details", PyVal.str p.back_or_neck_abnormality_details),
  ("skin_disorder", PyVal.str p.skin_disorder),
  ("skin_disorder_details", PyVal.str p.skin_disorder_details)])
  ++ (match r.page_8 with
    | Option.none => []
    | some p =>
      [("medical_attendants_reports_required", PyVal.str p.medical_attendants_reports_required),
  ("medical_attendants_reports_details", PyVal.str p.medical_attendants_reports_details),
  ("likely_to_require_surgery", PyVal.str p.likely_to_require_surgery),
  ("likely_to_require_surgery_details", PyVal.str p.likely_to_require_surgery_details),
  ("unfavourable_history_personal_or_family", PyVal.str p.unfavourable_history_personal_or_family),
  ("unfavourable_findings_medical_exam", PyVal.str p.unfavourable_findings_medical_exam),
  ("examiner_name", PyVal.str p.examiner_name),
  ("examiner_address", PyVal.str p.examiner_address),
  ("examiner_suburb", PyVal.str p.examiner_suburb),
  ("examiner_state", PyVal.str p.examiner_state),
  ("examiner_postcode", PyVal.str p.examiner_postcode),
  ("examiner_phone", PyVal.str p.examiner_phone),
  ("examiner_personal_qualifications", PyVal.str p.examiner_personal_qualifications)])
/-- First-match association lookup, the semantics of Python dict access for the
dicts built here (all construction sites use pairwise-distinct keys). -/
def dictGet (k : String) : List (String × PyVal) → Option PyVal
  | [] => Option.none
  | (k2, v) :: rest => if k2 = k then some v else dictGet k rest

/-- Field list of the PERSONALINFO group in the grouping_map of
PageBasedMedicalReportData.to_grouped_tables (src/data.py:1534-1622). -/
def personalInfoFields : List String :=
  ["reference_number",
   "name_of_life_to_be_insured",
   "address",
   "suburb",
   "state",
   "postcode",
   "date_of_birth",
   "occupation",
   "licence_number",
   "passport_number",
   "other_id"]

/-- Field list of the MEDICALHISTORY group in the grouping_map of
PageBasedMedicalReportData.to_grouped_tables (src/data.py:1534-1622). -/
def medicalHistoryFields : List String :=
  ["has_circulatory_system_disorder",
   "has_diabetes_or_high_blood_sugar",
   "has_genitourinary_disorder",
   "has_digestive_system_disorder",
   "has_cancer_or_tumour",
   "has_respiratory_disorder",
   "has_neurological_condition",
   "has_neurological_symptoms",
   "has_eye_or_ear_disorder",
   "has_skin_condition",
   "has_back_or_neck_pain",
   "has_joint_bone_or_muscle_disorder",
   "has_arthritis_or_osteoporosis_or_gout",
   "has_blood_disorder",
   "has_thyroid_disorder_or_lupus",
   "has_mental_or_nervous_condition",
   "has_female_reproductive_disorder_or_pregnancy",
   "pregnant_expected_date",
   "has_pregnancy_complications",
   "has_substance_or_alcohol_use_history",
   "has_positive_hiv_or_hepatitis_test",
   "has_high_risk_hiv_exposure_history",
   "has_absence_from_work_due_to_illness_or_injury",
   "has_undiagnosed_symptoms_or_condition",
   "has_recent_medication_prescribed",
   "has_recent_medical_tests",
   "has_genetic_testing_history_or_intention",
   "plans_future_medical_advice_or_treatment",
   "medical_history_details",
   "family_history",
   "family_history_heart_disease",
   "family_history_cardiomyopathy",
   "family_history_breast_cancer",
   "family_history_bowel_cancer",
   "family_history_other_cancer",
   "family_history_diabetes",
   "family_history_type_1_diabetes",
   "family_history_type_2_diabetes",
   "family_history_alzheimer_disease",
   "family_history_multiple_sclerosis",
   "family_history_other_hereditary_disease",
   "family_history_relationship_1",
   "family_history_medical_condition_1",
   "family_history_age_when_diagnosed_1",
   "family_history_age_at_death_1",
   "family_history_relationship_2",
   "family_history_medical_condition_2",
   "family_history_age_when_diagnosed_2",
   "family_history_age_at_death_2",
   "family_history_relationship_3",
   "family_history_medical_condition_3",
   "family_history_age_when_diagnosed_3",
   "family_history_age_at_death_3"]

/-- Field list of the EXAMINATIONRESULTS group in the grouping_map of
PageBasedMedicalReportData.to_grouped_tables (src/data.py:1534-1622). -/
def examinationResultsFields : List String :=
  ["known_to_examiner",
   "previously_attended_examiner",
   "unusual_build_or_behavior",
   "signs_of_tobacco_alcohol_or_drugs",
   "ever_smoked",
   "height_cm",
   "height_feet",
   "height_inches",
   "weight_kg",
   "weight_stone",
   "weight_lbs",
   "chest_full_inspiration_cm",
   "chest_full_inspiration_inches",
   "chest_full_expiration_cm",
   "chest_full_expiration_inches",
   "waist_circumference_cm",
   "waist_circumference_inches",
   "hips_circumference_cm",
   "hips_circumference_inches",
   "recent_weight_variation",
   "weight_variation_details",
   "chest_expansion_details",
   "respiratory_abnormality",
   "respiratory_fabnormality_details",
   "respiratory_sign",
   "respiratory_sign_details",
   "pulse_rate_and_character",
   "apex_interspace_position",
   "apex_distance_from_midsternal",
   "cardiac_enlargement",
   "cardiac_enlargement_details",
   "abnormal_heart_sounds_or_rhythm",
   "abnormal_heart_sounds_or_rhythm_details",
   "murmurs",
   "murmurs_details",
   "bp_Systolic_1",
   "bp_Diastolic_1",
   "bp_Systolic_2",
   "bp_Diastolic_2",
   "bp_Systolic_3",
   "bp_Diastolic_3",
   "peripheral_abnormalities",
   "peripheral_abnormalities_details",
   "heart_and_vascular_system_abnormal",
   "heart_and_vascular_system_abnormal_details",
   "on_treatment_for_hypertension",
   "hypertension_pretreatment_bp",
   "hypertension_duration",
   "hypertension_treatment_nature",
   "tongue_mouth_throat_abnormality",
   "tongue_mouth_throat_abnormality_details",
   "liver_spleen_abdominal_abnormality",
   "liver_spleen_abdominal_abnormality_details",
   "hernia_present",
   "hernia_details",
   "lymph_gland_abnormality",
   "lymph_gland_abnormality_details",
   "genito_urinary_abnormality",
   "genito_urinary_abnormality_details",
   "urine_protein",
   "urine_sugar",
   "urine_blood",
   "urine_blood_menstruating",
   "urine_other_abnormalities",
   "urine_other_abnormalities_details",
   "is_pregnant",
   "expected_pregnant_delivery_date",
   "vision_defect_or_eye_abnormality",
   "vision_defect_or_eye_abnormality_details",
   "hearing_or_speech_defect",
   "hearing_or_speech_defect_details",
   "ear_discharge_or_deafness_auriscopic_examination_details",
   "mental_abnormality",
   "mental_abnormality_details",
   "central_or_peripheral_disorder",
   "central_or_peripheral_disorder_details",
   "joint_abnormality",
   "joint_abnormality_details",
   "muscle_or_connective_tissue_abnormality",
   "muscle_or_connective_tissue_abnormality_details",
   "back_or_neck_abnormality",
   "back_or_neck_abnormality_details",
   "skin_disorder",
   "skin_disorder_details"]

/-- Field list of the SUMMARY group in the grouping_map of
PageBasedMedicalReportData.to_grouped_tables (src/data.py:1534-1622). -/
def summaryFields : List String :=
  ["medical_attendants_reports_required",
   "medical_attendants_reports_details",
   "likely_to_require_surgery",
   "likely_to_require_surgery_details",
   "unfavourable_history_personal_or_family",
   "unfavourable_findings_medical_exam"]

/-- Field list of the EXAMINERDETAILS group in the grouping_map of
PageBasedMedicalReportData.to_grouped_tables (src/data.py:1534-1622). -/
def examinerDetailsFields : List String :=
  ["examiner_name",
   "examiner_address",
   "examiner_suburb",
   "examiner_state",
   "examiner_postcode",
   "examiner_phone",
   "examiner_personal_qualifications"]
/-- The grouping_map of to_grouped_tables (src/data.py:1534-1622), in source order. -/
def groupingMap : List (String × List String) :=
  [("PERSONAL_INFO", personalInfoFields),
   ("MEDICAL_HISTORY", medicalHistoryFields),
   ("EXAMINATION_RESULTS", examinationResultsFields),
   ("SUMMARY", summaryFields),
   ("EXAMINER_DETAILS", examinerDetailsFields)]

/-- All grouping-map fields, groups concatenated in order. -/
def allGroupFields : List String :=
  personalInfoFields ++ medicalHistoryFields ++ examinationResultsFields ++
    summaryFields ++ examinerDetailsFields

/-- Python truthiness-based defaulting: `if not x: x = dflt` for an optional
string argument (None and "" are both falsy). -/
def resolveOpt (v : Option String) (dflt : String) : String :=
  match v with
  | Option.none => dflt
  | some s => if s = "" then dflt else s

/-- Synthesized id (src/data.py:1525-1528):
f"CLM_{ref}" if ref else "CLM_UNKNOWN", and likewise for POL_. -/
def synthId (pre : String) (ref : String) : String :=
  if ref = "" then pre ++ "UNKNOWN" else pre ++ ref

/-- PageBasedMedicalReportData.to_grouped_tables (src/data.py:1504-1649).
datetime.now().strftime of the source is supplied as the explicit `today`
argument.  Every group row starts with claim_id; PERSONAL_INFO additionally
carries policy_id, process_date and status; each grouping-map field is copied
from the flat record when present there and set to None otherwise. -/
def to_grouped_tables (r : PageBasedMedicalReportData)
    (policy_id claim_id process_date : Option String)
    (status : String) (today : String) :
    List (String × List (String × PyVal)) :=
  let complete_record := to_csv_records r
  let claimId := resolveOpt claim_id (synthId ("CLM_") (refNum r))
  let policyId := resolveOpt policy_id (synthId ("POL_") (refNum r))
  let processDate := resolveOpt process_date today
  groupingMap.map (fun g =>
    let base : List (String × PyVal) := [("claim_id", PyVal.str claimId)]
    let base := if g.1 = "PERSONAL_INFO" then
        base ++ [("policy_id", PyVal.str policyId),
                 ("process_date", PyVal.str processDate),
                 ("status", PyVal.str status)]
      else base
    (g.1, base ++ g.2.map (fun f =>
      (f, match dictGet f complete_record with
          | some v => v
          | Option.none => PyVal.none))))

/-- The four synthesized column names added by to_grouped_tables. -/
def synthCols : List String := ["claim_id", "policy_id", "process_date", "status"]

/-- Drop the synthesized columns from a list of key-value pairs. -/
def removeSynth (l : List (String × PyVal)) : List (String × PyVal) :=
  l.filter (fun kv => !(synthCols.contains kv.1))

/-- Union of the five groups' field/value pairs with the synthesized columns
removed (the re-concatenation of the round-trip claim). -/
def regroupedUnion (r : PageBasedMedicalReportData)
    (policy_id claim_id process_date : Option String)
    (status : String) (today : String) : List (String × PyVal) :=
  removeSynth (((to_grouped_tables r policy_id claim_id process_date status today).map
    Prod.snd).flatten)

/-- All nine page slots filled. -/
def allPagesPresent (r : PageBasedMedicalReportData) : Prop :=
  r.page_0.isSome ∧ r.page_1.isSome ∧ r.page_2.isSome ∧ r.page_3.isSome ∧
  r.page_4.isSome ∧ r.page_5.isSome ∧ r.page_6.isSome ∧ r.page_7.isSome ∧
  r.page_8.isSome

/-- A concrete page-0 record used by witnesses. -/
def samplePage0 : Page0Data where
  reference_number := "REF001"
  name_of_life_to_be_insured := "v"

/-- A concrete page-1 record used by witnesses. -/
def samplePage1 : Page1Data where
  address := "v"
  suburb := "v"
  state := "v"
  postcode := "v"
  date_of_birth := "v"
  occupation := "v"
  licence_number := "v"
  passport_number := "v"
  other_id := "v"
  has_circulatory_system_disorder := "v"
  has_diabetes_or_high_blood_sugar := "v"
  has_genitourinary_disorder := "v"
  has_digestive_system_disorder := "v"
  has_cancer_or_tumour := "v"
  has_respiratory_disorder := "v"
  has_neurological_condition := "v"
  has_neurological_symptoms := "v"
  has_eye_or_ear_disorder := "v"
  has_skin_condition := "v"
  has_back_or_neck_pain := "v"
  has_joint_bone_or_muscle_disorder := "v"

/-- A concrete page-2 record used by witnesses. -/
def samplePage2 : Page2Data where
  has_arthritis_or_osteoporosis_or_gout := "v"
  has_blood_disorder := "v"
  has_thyroid_disorder_or_lupus := "v"
  has_mental_or_nervous_condition := "v"
  has_female_reproductive_disorder_or_pregnancy := "v"
  pregnant_expected_date := "v"
  has_pregnancy_complications := "v"
  has_substance_or_alcohol_use_history := "v"
  has_positive_hiv_or_hepatitis_test := "v"
  has_high_risk_hiv_exposure_history := "v"
  has_absence_from_work_due_to_illness_or_injury := "v"
  has_undiagnosed_symptoms_or_condition := "v"
  has_recent_medication_prescribed := "v"
  has_recent_medical_tests := "v"
  has_genetic_testing_history_or_intention := "v"
  plans_future_medical_advice_or_treatment := "v"
  medical_history_details := "v"

/-- A concrete page-3 record used by witnesses. -/
def samplePage3 : Page3Data where
  family_history := "v"
  family_history_heart_disease := "v"
  family_history_cardiomyopathy := "v"
  family_history_breast_cancer := "v"
  family_history_bowel_cancer := "v"
  family_history_other_cancer := "v"
  family_history_diabetes := "v"
  family_history_type_1_diabetes := "v"
  family_history_type_2_diabetes := "v"
  family_history_alzheimer_disease := "v"
  family_history_multiple_sclerosis := "v"
  family_history_other_hereditary_disease := "v"
  family_history_relationship_1 := "v"
  family_history_medical_condition_1 := "v"
  family_history_age_when_diagnosed_1 := "v"
  family_history_age_at_death_1 := "v"
  family_history_relationship_2 := "v"
  family_history_medical_condition_2 := "v"
  family_history_age_when_diagnosed_2 := "v"
  family_history_age_at_death_2 := "v"
  family_history_relationship_3 := "v"
  family_history_medical_condition_3 := "v"
  family_history_age_when_diagnosed_3 := "v"
  family_history_age_at_death_3 := "v"
  known_to_examiner := "v"
  previously_attended_examiner := "v"
  unusual_build_or_behavior := "v"
  signs_of_tobacco_alcohol_or_drugs := "v"
  ever_smoked := "v"
  height_cm := 0
  height_feet := 0
  height_inches := 0
  weight_kg := 0
  weight_stone := 0
  weight_lbs := 0
  chest_full_inspiration_cm := 0
  chest_full_inspiration_inches := 0
  chest_full_expiration_cm := 0
  chest_full_expiration_inches := 0
  waist_circumference_cm := 0
  waist_circumference_inches := 0
  hips_circumference_cm := 0
  hips_circumference_inches := 0

/-- A concrete page-4 record used by witnesses. -/
def samplePage4 : Page4Data where
  recent_weight_variation := "v"
  weight_variation_details := "v"
  chest_expansion_details := "v"
  respiratory_abnormality := "v"
  respiratory_fabnormality_details := "v"
  respiratory_sign := "v"
  respiratory_sign_details := "v"
  pulse_rate_and_character := "v"
  apex_interspace_position := "v"
  apex_distance_from_midsternal := ⟨"1.0"⟩
  cardiac_enlargement := "v"
  cardiac_enlargement_details := "v"
  abnormal_heart_sounds_or_rhythm := "v"
  abnormal_heart_sounds_or_rhythm_details := "v"

/-- A concrete page-5 record used by witnesses. -/
def samplePage5 : Page5Data where
  murmurs := "v"
  murmurs_details := "v"
  bp_Systolic_1 := 0
  bp_Diastolic_1 := 0
  bp_Systolic_2 := 0
  bp_Diastolic_2 := 0
  bp_Systolic_3 := 0
  bp_Diastolic_3 := 0
  peripheral_abnormalities := "v"
  peripheral_abnormalities_details := "v"
  heart_and_vascular_system_abnormal := "v"
  heart_and_vascular_system_abnormal_details := "v"
  on_treatment_for_hypertension := "v"
  hypertension_pretreatment_bp := "v"
  hypertension_duration := "v"
  hypertension_treatment_nature := "v"
  tongue_mouth_throat_abnormality := "v"
  tongue_mouth_throat_abnormality_details := "v"
  liver_spleen_abdominal_abnormality := "v"
  liver_spleen_abdominal_abnormality_details := "v"

/-- A concrete page-6 record used by witnesses. -/
def samplePage6 : Page6Data where
  hernia_present := "v"
  hernia_details := "v"
  lymph_gland_abnormality := "v"
  lymph_gland_abnormality_details := "v"
  genito_urinary_abnormality := "v"
  genito_urinary_abnormality_details := "v"
  urine_protein := "v"
  urine_sugar := "v"
  urine_blood := "v"
  urine_blood_menstruating := "v"
  urine_other_abnormalities := "v"
  urine_other_abnormalities_details := "v"
  is_pregnant := "v"
  expected_pregnant_delivery_date := "v"
  vision_defect_or_eye_abnormality := "v"
  vision_defect_or_eye_abnormality_details := "v"
  hearing_or_speech_defect := "v"
  hearing_or_speech_defect_details := "v"

/-- A concrete page-7 record used by witnesses. -/
def samplePage7 : Page7Data where
  ear_discharge_or_deafness_auriscopic_examination_details := "v"
  mental_abnormality := "v"
  mental_abnormality_details := "v"
  central_or_peripheral_disorder := "v"
  central_or_peripheral_disorder_details := "v"
  joint_abnormality := "v"
  joint_abnormality_details := "v"
  muscle_or_connective_tissue_abnormality := "v"
  muscle_or_connective_tissue_abnormality_details := "v"
  back_or_neck_abnormality := "v"
  back_or_neck_abnormality_details := "v"
  skin_disorder := "v"
  skin_disorder_details := "v"

/-- A concrete page-8 record used by witnesses. -/
def samplePage8 : Page8Data where
  medical_attendants_reports_required := "v"
  medical_attendants_reports_details := "v"
  likely_to_require_surgery := "v"
  likely_to_require_surgery_details := "v"
  unfavourable_history_personal_or_family := "v"
  unfavourable_findings_medical_exam := "v"
  examiner_name := "v"
  examiner_address := "v"
  examiner_suburb := "v"
  examiner_state := "v"
  examiner_postcode := "v"
  examiner_phone := "v"
  examiner_personal_qualifications := "v"
/-- A concrete fully-populated report used by witnesses. -/
def sampleReport : PageBasedMedicalReportData where
  page_0 := some samplePage0
  page_1 := some samplePage1
  page_2 := some samplePage2
  page_3 := some samplePage3
  page_4 := some samplePage4
  page_5 := some samplePage5
  page_6 := some samplePage6
  page_7 := some samplePage7
  page_8 := some samplePage8


/-- The value a grouping-map field receives in its group row: the flat-record
value when the field is present there, and None otherwise. -/
def groupVal (r : PageBasedMedicalReportData) (f : String) : PyVal :=
  match dictGet f (to_csv_records r) with
  | some v => v
  | Option.none => PyVal.none

/-- The 161 flat-row field names of a fully-populated report, in record order. -/
def fullFlatKeys : List String := (to_csv_records sampleReport).map Prod.fst

theorem dictGet_append (k : String) (a b : List (String × PyVal)) :
    dictGet k (a ++ b) = match dictGet k a with
      | some v => some v
      | Option.none => dictGet k b := by
  induction a with
  | nil => simp [dictGet]
  | cons hd tl ih =>
    obtain ⟨k2, v⟩ := hd
    simp only [List.cons_append, dictGet]
    by_cases h : k2 = k
    · simp [h]
    · simp [h, ih]

theorem dictGet_map_self (k : String) (fields : List String) (valOf : String → PyVal) :
    dictGet k (fields.map (fun f => (f, valOf f))) =
      if k ∈ fields then some (valOf k) else Option.none := by
  induction fields with
  | nil => simp [dictGet]
  | cons f tl ih =>
    simp only [List.map_cons, dictGet]
    by_cases h : f = k
    · subst h; simp
    · rw [if_neg h, ih]
      have hne : ¬ k = f := fun hk => h hk.symm
      simp [List.mem_cons, hne]

theorem dictGet_eq_none_iff (k : String) (l : List (String × PyVal)) :
    dictGet k l = Option.none ↔ k ∉ l.map Prod.fst := by
  induction l with
  | nil => simp [dictGet]
  | cons hd tl ih =>
    obtain ⟨k2, v⟩ := hd
    simp only [dictGet, List.map_cons, List.mem_cons]
    by_cases h : k2 = k
    · simp [h]
    · have hne : ¬ k = k2 := fun hk => h hk.symm
      simp [h, hne, ih]

theorem removeSynth_append (a b : List (String × PyVal)) :
    removeSynth (a ++ b) = removeSynth a ++ removeSynth b :=
  List.filter_append _ _

theorem removeSynth_map_self (fields : List String) (valOf : String → PyVal)
    (h : (fields.all (fun f => !(synthCols.contains f))) = true) :
    removeSynth (fields.map (fun f => (f, valOf f))) =
      fields.map (fun f => (f, valOf f)) := by
  apply List.filter_eq_self.mpr
  intro a ha
  obtain ⟨f, hf, rfl⟩ := List.mem_map.mp ha
  exact List.all_eq_true.mp h f hf

/-- The union of the five groups minus the synthesized columns is exactly the
grouping-map fields paired with their flat-record values (in group order). -/
theorem regroupedUnion_eq (r : PageBasedMedicalReportData)
    (pid cid pd : Option String) (st today : String) :
    regroupedUnion r pid cid pd st today =
      allGroupFields.map (fun f => (f, groupVal r f)) := by
  unfold regroupedUnion to_grouped_tables
  simp only [groupingMap, List.map_cons, List.map_nil, List.flatten_cons,
    List.flatten_nil, List.append_nil, removeSynth_append]
  rw [removeSynth_map_self _ _ (by decide), removeSynth_map_self _ _ (by decide),
    removeSynth_map_self _ _ (by decide), removeSynth_map_self _ _ (by decide),
    removeSynth_map_self _ _ (by decide)]
  simp only [removeSynth, synthCols, List.filter_cons, List.filter_nil]
  simp [allGroupFields, groupVal]


/-- For a fully-populated report the flat-row key list is exactly fullFlatKeys. -/
theorem keys_of_full (r : PageBasedMedicalReportData) (h : allPagesPresent r) :
    (to_csv_records r).map Prod.fst = fullFlatKeys := by
  obtain ⟨h0, h1, h2, h3, h4, h5, h6, h7, h8⟩ := h
  cases r with
  | mk p0 p1 p2 p3 p4 p5 p6 p7 p8 =>
    obtain ⟨a0, rfl⟩ := Option.isSome_iff_exists.mp h0
    obtain ⟨a1, rfl⟩ := Option.isSome_iff_exists.mp h1
    obtain ⟨a2, rfl⟩ := Option.isSome_iff_exists.mp h2
    obtain ⟨a3, rfl⟩ := Option.isSome_iff_exists.mp h3
    obtain ⟨a4, rfl⟩ := Option.isSome_iff_exists.mp h4
    obtain ⟨a5, rfl⟩ := Option.isSome_iff_exists.mp h5
    obtain ⟨a6, rfl⟩ := Option.isSome_iff_exists.mp h6
    obtain ⟨a7, rfl⟩ := Option.isSome_iff_exists.mp h7
    obtain ⟨a8, rfl⟩ := Option.isSome_iff_exists.mp h8
    rfl

/-- C1 (amended): the static grouping map assigns every flat-row field name to
exactly one of the five groups, with no duplicate field in the concatenated
group lists; and for every report in which all nine pages are present, the
union of the five groups' field/value pairs with the synthesized columns
claim_id, policy_id, process_date and status removed reproduces the flat row
exactly (as a mapping).  For partial reports the union additionally maps each
missing page's fields to None, so the unconditional round-trip of the claim
fails (see the counterexample). -/
theorem c1_grouping_partition_roundtrip :
    ((fullFlatKeys.all (fun k => (groupingMap.countP (fun g => g.2.contains k)) == 1)) = true ∧
      allGroupFields.Nodup) ∧
    ∀ (r : PageBasedMedicalReportData), allPagesPresent r →
      ∀ (pid cid pd : Option String) (st today k : String),
        dictGet k (regroupedUnion r pid cid pd st today) = dictGet k (to_csv_records r) := by
  refine ⟨⟨by decide, by decide⟩, ?_⟩
  intro r hfull pid cid pd st today k
  rw [regroupedUnion_eq, dictGet_map_self]
  have hkeys := keys_of_full r hfull
  by_cases hk : k ∈ allGroupFields
  · rw [if_pos hk]
    have hsub : (allGroupFields.all (fun j => fullFlatKeys.contains j)) = true := by decide
    have hkf : k ∈ fullFlatKeys :=
      List.mem_of_elem_eq_true (List.all_eq_true.mp hsub k hk)
    have hmem : k ∈ (to_csv_records r).map Prod.fst := by rw [hkeys]; exact hkf
    rcases hopt : dictGet k (to_csv_records r) with _ | v
    · exact absurd ((dictGet_eq_none_iff k _).mp hopt) (by simpa using hmem)
    · simp [groupVal, hopt]
  · rw [if_neg hk]
    have hsub2 : (fullFlatKeys.all (fun j => allGroupFields.contains j)) = true := by decide
    have hnk : k ∉ fullFlatKeys := fun hkf =>
      hk (List.mem_of_elem_eq_true (List.all_eq_true.mp hsub2 k hkf))
    exact ((dictGet_eq_none_iff k _).mpr (by rw [hkeys]; exact hnk)).symm

/-- Witness for C1: the round-trip hypotheses hold at a concrete fully
populated report. -/
theorem c1_grouping_partition_roundtrip_witness :
    allPagesPresent sampleReport ∧
    dictGet ("address")
        (regroupedUnion sampleReport Option.none Option.none Option.none
          ("Pending") ("2025-01-01")) =
      dictGet ("address") (to_csv_records sampleReport) :=
  ⟨⟨rfl, rfl, rfl, rfl, rfl, rfl, rfl, rfl, rfl⟩,
    c1_grouping_partition_roundtrip.2 sampleReport
      ⟨rfl, rfl, rfl, rfl, rfl, rfl, rfl, rfl, rfl⟩
      Option.none Option.none Option.none ("Pending") ("2025-01-01") ("address")⟩

/-- Counterexample to C1 as stated: for the empty report (all pages absent),
the regrouped union maps "address" to None while the flat row has no "address"
key at all, so the union minus the synthesized columns does not reproduce the
flat row. -/
theorem c1_counterexample :
    dictGet ("address")
        (regroupedUnion emptyReport Option.none Option.none
          (some ("2025-01-01")) ("Pending") ("2025-01-01")) = some PyVal.none ∧
    dictGet ("address") (to_csv_records emptyReport) = Option.none := by
  constructor
  · rfl
  · rfl


/-- Python exceptions relevant to the embedded control flow. -/
inductive PyErr where
  | valueError (msg : String)
  | nameError (missing : String)
deriving DecidableEq, Repr

/-- A base64-encoded page image. -/
abbrev Img := String

/-- The per-page structured-output type of the schema registry built in
PageProcessor.__init__ (src/page_processor.py:54-75): page n is extracted into
PageNData.  Indices beyond 8 are unreachable behind the 9-page guard. -/
def PageTy : Nat → Type
  | 0 => Page0Data
  | 1 => Page1Data
  | 2 => Page2Data
  | 3 => Page3Data
  | 4 => Page4Data
  | 5 => Page5Data
  | 6 => Page6Data
  | 7 => Page7Data
  | 8 => Page8Data
  | _ => PEmpty

/-- The if/elif chain of process_all_pages (src/page_processor.py:197-214)
assigning a freshly extracted page record to its slot. -/
def assignPage (res : PageBasedMedicalReportData) :
    (n : Nat) → PageTy n → PageBasedMedicalReportData
  | 0, d => { res with page_0 := some d }
  | 1, d => { res with page_1 := some d }
  | 2, d => { res with page_2 := some d }
  | 3, d => { res with page_3 := some d }
  | 4, d => { res with page_4 := some d }
  | 5, d => { res with page_5 := some d }
  | 6, d => { res with page_6 := some d }
  | 7, d => { res with page_7 := some d }
  | 8, d => { res with page_8 := some d }
  | _+9, d => nomatch d

/-- The page loop of process_all_pages (src/page_processor.py:192-219): the
outcome of the retried per-page extraction call is supplied by the oracle
`ext`; an exception from process_page is caught and the loop continues with
the next page, leaving the slot unassigned. -/
def processPagesLoop (ext : (n : Nat) → Img → Except Unit (PageTy n))
    (n : Nat) (res : PageBasedMedicalReportData) :
    List Img → PageBasedMedicalReportData
  | [] => res
  | img :: rest =>
    match ext n img with
    | Except.ok d => processPagesLoop ext (n+1) (assignPage res n d) rest
    | Except.error _ => processPagesLoop ext (n+1) res rest

/-- PageProcessor.process_all_pages (src/page_processor.py:173-224): raises
ValueError for more than 9 pages, otherwise processes the pages sequentially
starting from an empty result object and returns it. -/
def process_all_pages (ext : (n : Nat) → Img → Except Unit (PageTy n))
    (images_b64 : List Img) : Except PyErr PageBasedMedicalReportData :=
  if images_b64.length > 9 then
    Except.error (PyErr.valueError ("Maximum 9 pages supported (0-8)"))
  else
    Except.ok (processPagesLoop ext 0 emptyReport images_b64)

/-- Whether slot k of the aggregate report is populated. -/
def slotFilled (r : PageBasedMedicalReportData) : Nat → Bool
  | 0 => r.page_0.isSome
  | 1 => r.page_1.isSome
  | 2 => r.page_2.isSome
  | 3 => r.page_3.isSome
  | 4 => r.page_4.isSome
  | 5 => r.page_5.isSome
  | 6 => r.page_6.isSome
  | 7 => r.page_7.isSome
  | 8 => r.page_8.isSome
  | _+9 => false

theorem slotFilled_empty (k : Nat) : slotFilled emptyReport k = false := by
  rcases k with _|_|_|_|_|_|_|_|_|k <;> rfl

theorem slotFilled_assign (res : PageBasedMedicalReportData) (m : Nat) (hm : m < 9)
    (d : PageTy m) (k : Nat) :
    slotFilled (assignPage res m d) k = true ↔ (k = m ∨ slotFilled res k = true) := by
  interval_cases m <;> rcases k with _|_|_|_|_|_|_|_|_|k <;>
    simp [slotFilled, assignPage]


/-- Slot contents after running the page loop from index n: a slot k ends up
filled exactly when it was already filled or lies in the processed range and
its extraction call succeeded. -/
theorem slotFilled_loop (ext : (n : Nat) → Img → Except Unit (PageTy n)) :
    ∀ (imgs : List Img) (n : Nat) (res : PageBasedMedicalReportData) (k : Nat),
      n + imgs.length ≤ 9 →
      (slotFilled (processPagesLoop ext n res imgs) k = true ↔
        (slotFilled res k = true ∨
          (n ≤ k ∧ k < n + imgs.length ∧ (ext k (imgs.getD (k - n) (""))).isOk = true))) := by
  intro imgs
  induction imgs with
  | nil =>
    intro n res k h
    simp only [processPagesLoop, List.length_nil, Nat.add_zero]
    constructor
    · exact Or.inl
    · rintro (hres | ⟨h1, h2, _⟩)
      · exact hres
      · exact absurd h2 (by omega)
  | cons img rest ih =>
    intro n res k h
    simp only [List.length_cons] at h ⊢
    simp only [processPagesLoop]
    cases hext : ext n img with
    | ok d =>
      rw [ih (n+1) (assignPage res n d) k (by omega)]
      rw [slotFilled_assign res n (by omega) d k]
      by_cases hkn : k = n
      · subst hkn
        refine iff_of_true (Or.inl (Or.inl rfl)) (Or.inr ⟨Nat.le_refl k, by omega, ?_⟩)
        rw [Nat.sub_self, List.getD_cons_zero, hext]
        rfl
      · by_cases hlt : k < n
        · constructor
          · rintro ((hkm | hres) | ⟨h1, _, _⟩)
            · exact absurd hkm hkn
            · exact Or.inl hres
            · exact absurd h1 (by omega)
          · rintro (hres | ⟨h1, _, _⟩)
            · exact Or.inl (Or.inr hres)
            · exact absurd h1 (by omega)
        · have hsub : k - n = (k - (n+1)) + 1 := by omega
          rw [hsub, List.getD_cons_succ]
          constructor
          · rintro ((hkm | hres) | ⟨_, h2, h3⟩)
            · exact absurd hkm hkn
            · exact Or.inl hres
            · exact Or.inr ⟨by omega, by omega, h3⟩
          · rintro (hres | ⟨_, h2, h3⟩)
            · exact Or.inl (Or.inr hres)
            · exact Or.inr ⟨by omega, by omega, h3⟩
    | error e =>
      rw [ih (n+1) res k (by omega)]
      by_cases hkn : k = n
      · subst hkn
        constructor
        · rintro (hres | ⟨h1, _, _⟩)
          · exact Or.inl hres
          · exact absurd h1 (by omega)
        · rintro (hres | ⟨_, _, h3⟩)
          · exact Or.inl hres
          · rw [Nat.sub_self, List.getD_cons_zero, hext] at h3
            exact absurd h3 (by simp [Except.isOk, Except.toBool])
      · by_cases hlt : k < n
        · constructor
          · rintro (hres | ⟨h1, _, _⟩)
            · exact Or.inl hres
            · exact absurd h1 (by omega)
          · rintro (hres | ⟨h1, _, _⟩)
            · exact Or.inl hres
            · exact absurd h1 (by omega)
        · have hsub : k - n = (k - (n+1)) + 1 := by omega
          rw [hsub, List.getD_cons_succ]
          constructor
          · rintro (hres | ⟨_, h2, h3⟩)
            · exact Or.inl hres
            · exact Or.inr ⟨by omega, by omega, h3⟩
          · rintro (hres | ⟨_, h2, h3⟩)
            · exact Or.inl hres
            · exact Or.inr ⟨by omega, by omega, h3⟩


theorem bool_eq_of_iff {a b : Bool} (h : a = true ↔ b = true) : a = b := by
  cases a <;> cases b <;> simp_all

/-- Counterexample to C2 as stated: on a 10-page input, process_all_pages does
not ignore the extra page and return an AggregateReport; it raises ValueError
before processing any page. -/
theorem c2_counterexample :
    process_all_pages (fun _ _ => Except.error ()) (List.replicate 10 ("")) =
      Except.error (PyErr.valueError ("Maximum 9 pages supported (0-8)")) := rfl

/-- C2 (amended): for every input list of more than 9 page images,
process_all_pages raises ValueError("Maximum 9 pages supported (0-8)") instead
of ignoring the extra pages; no AggregateReport is returned. -/
theorem c2_more_than_nine_pages_raises
    (ext : (n : Nat) → Img → Except Unit (PageTy n)) (images : List Img)
    (h : images.length > 9) :
    process_all_pages ext images =
      Except.error (PyErr.valueError ("Maximum 9 pages supported (0-8)")) := by
  simp [process_all_pages, h]

/-- Witness for C2 (amended) at a concrete 10-image input. -/
theorem c2_more_than_nine_pages_raises_witness :
    (List.replicate 10 ("" : Img)).length > 9 ∧
    process_all_pages (fun _ _ => Except.error ()) (List.replicate 10 ("")) =
      Except.error (PyErr.valueError ("Maximum 9 pages supported (0-8)")) :=
  ⟨by decide,
    c2_more_than_nine_pages_raises (fun _ _ => Except.error ())
      (List.replicate 10 ("")) (by decide)⟩

/-- C4: for at most 9 pages, when page j's extraction always fails terminally
and every other processed page's call succeeds, the failure is caught inside
the document-level loop: process_all_pages still returns an AggregateReport,
slot j is left empty, and every other slot is filled exactly when its page was
in the input. -/
theorem c4_page_failure_is_isolated
    (ext : (n : Nat) → Img → Except Unit (PageTy n)) (images : List Img)
    (j : Nat) (h9 : images.length ≤ 9) (hj : j < images.length)
    (hfail : ∀ img, (ext j img).isOk = false)
    (hok : ∀ (n : Nat) (img : Img), n ≠ j → n < images.length →
      (ext n img).isOk = true) :
    ∃ r, process_all_pages ext images = Except.ok r ∧
      slotFilled r j = false ∧
      ∀ k, k ≠ j → slotFilled r k = decide (k < images.length) := by
  refine ⟨processPagesLoop ext 0 emptyReport images, ?_, ?_, ?_⟩
  · simp [process_all_pages, Nat.not_lt.mpr h9]
  · have hiff := slotFilled_loop ext images 0 emptyReport j (by omega)
    rw [Bool.eq_false_iff]
    intro htrue
    rcases hiff.mp htrue with hres | ⟨_, _, hok2⟩
    · rw [slotFilled_empty] at hres
      exact Bool.false_ne_true hres
    · rw [hfail] at hok2
      exact Bool.false_ne_true hok2
  · intro k hk
    have hiff := slotFilled_loop ext images 0 emptyReport k (by omega)
    apply bool_eq_of_iff
    rw [hiff]
    constructor
    · rintro (hres | ⟨_, h2, _⟩)
      · rw [slotFilled_empty] at hres
        exact absurd hres Bool.false_ne_true
      · simpa using h2
    · intro hkl
      exact Or.inr ⟨Nat.zero_le k, by simpa using hkl,
        hok k _ hk (by simpa using hkl)⟩

/-- Witness for C4: one always-failing page among two. -/
theorem c4_page_failure_is_isolated_witness :
    ∃ r, process_all_pages
        (fun n _ =>
          (match n with
            | 1 => Except.ok (samplePage1)
            | _ => Except.error ()))
        [(""), ("x")] = Except.ok r ∧
      slotFilled r 0 = false ∧
      ∀ k, k ≠ 0 → slotFilled r k = decide (k < 2) := by
  refine c4_page_failure_is_isolated _ [(""), ("x")] 0 (by decide) (by decide) ?_ ?_
  · intro img
    rfl
  · intro n img hn hlt
    rcases n with _|_|n
    · exact absurd rfl hn
    · rfl
    · exact absurd hlt (by simp)

/-- C5: for at most 9 pages with every processed page's extraction call
succeeding, process_all_pages returns an AggregateReport whose first N slots
are exactly the populated ones. -/
theorem c5_all_success_fills_prefix
    (ext : (n : Nat) → Img → Except Unit (PageTy n)) (images : List Img)
    (h9 : images.length ≤ 9)
    (hok : ∀ (n : Nat) (img : Img), n < images.length → (ext n img).isOk = true) :
    ∃ r, process_all_pages ext images = Except.ok r ∧
      ∀ k, slotFilled r k = decide (k < images.length) := by
  refine ⟨processPagesLoop ext 0 emptyReport images, ?_, ?_⟩
  · simp [process_all_pages, Nat.not_lt.mpr h9]
  · intro k
    have hiff := slotFilled_loop ext images 0 emptyReport k (by omega)
    apply bool_eq_of_iff
    rw [hiff]
    constructor
    · rintro (hres | ⟨_, h2, _⟩)
      · rw [slotFilled_empty] at hres
        exact absurd hres Bool.false_ne_true
      · simpa using h2
    · intro hkl
      exact Or.inr ⟨Nat.zero_le k, by simpa using hkl,
        hok k _ (by simpa using hkl)⟩

/-- Witness for C5: two pages, both succeeding. -/
theorem c5_all_success_fills_prefix_witness :
    ∃ r, process_all_pages
        (fun n _ =>
          (match n with
            | 0 => Except.ok (samplePage0)
            | 1 => Except.ok (samplePage1)
            | _ => Except.error ()))
        [(""), ("x")] = Except.ok r ∧
      ∀ k, slotFilled r k = decide (k < 2) := by
  refine c5_all_success_fills_prefix _ [(""), ("x")] (by decide) ?_
  intro n img hlt
  rcases n with _|_|n
  · rfl
  · rfl
  · exact absurd hlt (by simp)


/-- Outcome of process_page: a returned value, a raised exception, or the
implicit None return when the while loop is never entered. -/
inductive RetryOutcome (A : Type) where
  | ok (a : A)
  | raised
  | fellThrough
deriving DecidableEq

/-- The retry loop of PageProcessor.process_page (src/page_processor.py:134-171).
`invoke k` is the outcome of the model call made while retry_count = k.  The
fuel argument equals maxRetries - retry_count, so fuel = 0 is exactly the
falsity of the while condition.  Returns the outcome together with the number
of invocations made and the list of back-off sleeps (2 ** retry_count seconds
each) performed, in order. -/
def retryAux {A : Type} (maxRetries : Nat) (invoke : Nat → Except Unit A) :
    Nat → Nat → RetryOutcome A × Nat × List Nat
  | 0, _ => (RetryOutcome.fellThrough, 0, [])
  | fuel+1, k =>
    match invoke k with
    | Except.ok a => (RetryOutcome.ok a, 1, [])
    | Except.error _ =>
      if k + 1 ≥ maxRetries then (RetryOutcome.raised, 1, [])
      else
        let rest := retryAux maxRetries invoke fuel (k+1)
        (rest.1, rest.2.1 + 1, (2 ^ (k+1)) :: rest.2.2)

/-- process_page's retry mechanism with its constants: max_retries = 3,
retry_count starting at 0. -/
def processPageRetry {A : Type} (invoke : Nat → Except Unit A) :
    RetryOutcome A × Nat × List Nat :=
  retryAux 3 invoke 3 0

/-- C3: when every model call fails, process_page makes exactly 3 invocations
and then re-raises, sleeping 2 seconds after the first failed attempt and 4
seconds after the second, with no sleep after the third: cumulative sleep 6. -/
theorem c3_retry_bound {A : Type} (invoke : Nat → Except Unit A)
    (hfail : ∀ k, invoke k = Except.error ()) :
    processPageRetry invoke = (RetryOutcome.raised, 3, [2, 4]) ∧
    (processPageRetry invoke).2.2.sum = 6 := by
  have h : processPageRetry invoke = (RetryOutcome.raised, 3, [2, 4]) := by
    simp [processPageRetry, retryAux, hfail]
  exact ⟨h, by rw [h]; rfl⟩

/-- Witness for C3 with a concrete always-failing call. -/
theorem c3_retry_bound_witness :
    processPageRetry (fun _ => (Except.error () : Except Unit Unit)) =
      (RetryOutcome.raised, 3, [2, 4]) ∧
    (processPageRetry (fun _ => (Except.error () : Except Unit Unit))).2.2.sum = 6 :=
  c3_retry_bound (fun _ => Except.error ()) (fun _ => rfl)


/-- The whitespace characters removed by Python str.strip(). -/
def pyWhitespace : List Char := [' ', '\t', '\n', '\r', '\x0B', '\x0C']

/-- Python str.strip(): drop leading and trailing whitespace. -/
def stripChars (l : List Char) : List Char :=
  ((l.dropWhile (fun c => pyWhitespace.contains c)).reverse.dropWhile
    (fun c => pyWhitespace.contains c)).reverse

/-- Python str.strip() on a String. -/
def pyStrip (s : String) : String := String.mk (stripChars s.data)

/-- The list of sentinel strings treated as non-dates (src/data.py:26). -/
def nonDateValues : List String :=
  ["N/A", "n/a", "N/a", "NA", "na", "None", "none", "NONE", "NULL", "null",
   "-", "--", "/", "Not applicable", "Not provided", "Unknown", "unknown"]

/-- One regex digit group with a width range: the maximal leading digit run,
accepted when its length lies in [lo, hi].  Because each group in the source
patterns is followed by a non-digit separator (or end of string), the greedy
run is exactly what the regex engine matches; the \x5cd class is modelled as
the ASCII digits the inputs consist of. -/
def grpRange (lo hi : Nat) (l : List Char) : Option (List Char × List Char) :=
  let g := l.takeWhile Char.isDigit
  if lo ≤ g.length ∧ g.length ≤ hi then some (g, l.dropWhile Char.isDigit)
  else Option.none

/-- Full-string match of a three-group date pattern
group1 sep group2 sep group3 with the given width ranges
(the shape of each regex in src/data.py:32-37). -/
def matchPat (lo1 hi1 lo2 hi2 lo3 hi3 : Nat) (sep : Char) (l : List Char) :
    Option (String × String × String) :=
  match grpRange lo1 hi1 l with
  | some (g1, c1 :: r1) =>
    if c1 = sep then
      match grpRange lo2 hi2 r1 with
      | some (g2, c2 :: r2) =>
        if c2 = sep then
          match grpRange lo3 hi3 r2 with
          | some (g3, []) => some (g1.asString, g2.asString, g3.asString)
          | _ => Option.none
        else Option.none
      | _ => Option.none
    else Option.none
  | _ => Option.none

/-- Python format spec 0>2 : right-align to width 2, filling with zeros. -/
def pad2 (s : String) : String :=
  String.mk (List.replicate (2 - s.length) ('0')) ++ s

/-- Numeric value of a digit string. -/
def digitsToNat (l : List Char) : Nat :=
  l.foldl (fun acc c => acc * 10 + (c.toNat - 48)) 0

/-- Gregorian leap year, as used by datetime. -/
def isLeapYear (y : Nat) : Bool :=
  (y % 4 == 0) && ((y % 100 != 0) || (y % 400 == 0))

/-- Days in a month, as used by datetime. -/
def daysInMonth (y m : Nat) : Nat :=
  if m = 2 then (if isLeapYear y then 29 else 28)
  else if m = 4 ∨ m = 6 ∨ m = 9 ∨ m = 11 then 30 else 31

/-- datetime.strptime(converted, yyyy-mm-dd) succeeding: a 4-digit year and
1-2 digit month and day joined by dashes, denoting a valid calendar date
(datetime accepts years 1-9999; 4 digits bound the year above). -/
def validYMD (s : String) : Bool :=
  match matchPat 4 4 1 2 1 2 ('-') s.data with
  | some (ys, ms, ds) =>
    let y := digitsToNat ys.data
    let m := digitsToNat ms.data
    let d := digitsToNat ds.data
    decide (1 ≤ y ∧ (1 ≤ m ∧ m ≤ 12) ∧ 1 ≤ d ∧ d ≤ daysInMonth y m)
  | Option.none => false

/-- Pattern 4 of the loop (YYYY/MM/DD), reached when patterns 1-3 fail to
produce a valid date; with no (valid) match the loop falls through and the
function returns the empty string (src/data.py:39-53). -/
def convert_rest4 (cleaned : String) : String :=
  match matchPat 4 4 1 2 1 2 ('/') cleaned.data with
  | some (y1, m1, d1) =>
    let conv := y1 ++ "-" ++ pad2 m1 ++ "-" ++ pad2 d1
    if validYMD conv then conv else ""
  | Option.none => ""

/-- Patterns 3-4 of the loop (pattern 3: already YYYY-MM-DD, converter returns
the cleaned input unchanged). -/
def convert_rest3 (cleaned : String) : String :=
  match matchPat 4 4 1 2 1 2 ('-') cleaned.data with
  | some _ =>
    if validYMD cleaned then cleaned else convert_rest4 cleaned
  | Option.none => convert_rest4 cleaned

/-- Patterns 2-4 of the loop (pattern 2: DD-MM-YYYY). -/
def convert_rest2 (cleaned : String) : String :=
  match matchPat 1 2 1 2 4 4 ('-') cleaned.data with
  | some (d1, m1, y1) =>
    let conv := y1 ++ "-" ++ pad2 m1 ++ "-" ++ pad2 d1
    if validYMD conv then conv else convert_rest3 cleaned
  | Option.none => convert_rest3 cleaned

/-- The pattern loop of convert_date_format (src/data.py:39-53), starting with
pattern 1 (DD/MM/YYYY): patterns are tried in order; a match whose converted
form fails strptime validation falls through to the next pattern. -/
def convert_rest (cleaned : String) : String :=
  match matchPat 1 2 1 2 4 4 ('/') cleaned.data with
  | some (d1, m1, y1) =>
    let conv := y1 ++ "-" ++ pad2 m1 ++ "-" ++ pad2 d1
    if validYMD conv then conv else convert_rest2 cleaned
  | Option.none => convert_rest2 cleaned

/-- convert_date_format (src/data.py:9-53). -/
def convert_date_format (date_string : String) : String :=
  if date_string = "" ∨ pyStrip date_string = "" then ""
  else if nonDateValues.contains (pyStrip date_string) then ""
  else convert_rest (pyStrip date_string)

/-- Whether any of the four recognized date patterns matches the cleaned
input. -/
def matchesAnyPattern (cleaned : String) : Bool :=
  (matchPat 1 2 1 2 4 4 ('/') cleaned.data).isSome ||
  (matchPat 1 2 1 2 4 4 ('-') cleaned.data).isSome ||
  (matchPat 4 4 1 2 1 2 ('-') cleaned.data).isSome ||
  (matchPat 4 4 1 2 1 2 ('/') cleaned.data).isSome

theorem convert_rest_of_no_match (c : String) (h : matchesAnyPattern c = false) :
    convert_rest c = "" := by
  simp only [matchesAnyPattern, Bool.or_eq_false_iff] at h
  obtain ⟨⟨⟨h1, h2⟩, h3⟩, h4⟩ := h
  have hm1 : matchPat 1 2 1 2 4 4 ('/') c.data = Option.none :=
    Option.not_isSome_iff_eq_none.mp (by simp [h1])
  have hm2 : matchPat 1 2 1 2 4 4 ('-') c.data = Option.none :=
    Option.not_isSome_iff_eq_none.mp (by simp [h2])
  have hm3 : matchPat 4 4 1 2 1 2 ('-') c.data = Option.none :=
    Option.not_isSome_iff_eq_none.mp (by simp [h3])
  have hm4 : matchPat 4 4 1 2 1 2 ('/') c.data = Option.none :=
    Option.not_isSome_iff_eq_none.mp (by simp [h4])
  simp [convert_rest, convert_rest2, convert_rest3, convert_rest4,
    hm1, hm2, hm3, hm4]

/-- C7: convert_date_format normalizes the recognized formats, maps sentinel
non-dates to the empty string, and maps every input whose stripped form
matches none of the four recognized patterns to the empty string rather than
rejecting it. -/
theorem c7_convert_date_format :
    convert_date_format ("31/10/1998") = "1998-10-31" ∧
    convert_date_format ("1998-10-31") = "1998-10-31" ∧
    convert_date_format ("N/A") = "" ∧
    convert_date_format ("not-a-date") = "" ∧
    ∀ s, matchesAnyPattern (pyStrip s) = false → convert_date_format s = "" := by
  refine ⟨by decide, by decide, by decide, by decide, ?_⟩
  intro s h
  unfold convert_date_format
  split_ifs with hif1 hif2
  · rfl
  · rfl
  · exact convert_rest_of_no_match (pyStrip s) h

/-- Witness for C7's universally quantified clause at a concrete input. -/
theorem c7_convert_date_format_witness :
    matchesAnyPattern (pyStrip ("hello")) = false ∧
    convert_date_format ("hello") = "" :=
  ⟨by decide, c7_convert_date_format.2.2.2.2 ("hello") (by decide)⟩


/-- C8: when claim_id and policy_id are not supplied, to_grouped_tables
synthesizes them from the reference number: every one of the five group rows
carries claim_id = CLM_ followed by the reference number (CLM_UNKNOWN when it
is empty), and the PERSONAL_INFO row (the first group) carries the analogous
POL_ policy id. -/
theorem c8_synthesized_ids (r : PageBasedMedicalReportData)
    (pd : Option String) (st today : String) :
    ((to_grouped_tables r Option.none Option.none pd st today).map
        (fun t => dictGet ("claim_id") t.2)) =
      List.replicate 5 (some (PyVal.str
        (if refNum r = "" then "CLM_UNKNOWN" else "CLM_" ++ refNum r))) ∧
    dictGet ("policy_id")
        (((to_grouped_tables r Option.none Option.none pd st today).getD 0
          (("", []))).2) =
      some (PyVal.str
        (if refNum r = "" then "POL_UNKNOWN" else "POL_" ++ refNum r)) := by
  by_cases href : refNum r = "" <;>
    simp [to_grouped_tables, groupingMap, dictGet, resolveOpt, synthId, href,
      List.replicate]


/-- A value as bound into the parameterized SQL statement: NULL, a string, an
int, or a float (modelled as an exact rational; the decimal strings exercised
here are carried verbatim or dropped, never rounded). -/
inductive DBVal where
  | null
  | str (s : String)
  | int (n : Int)
  | float (q : Rat)
deriving DecidableEq, Repr

/-- Python str(value) for the values that occur in grouped rows. -/
def pyStr : PyVal → String
  | PyVal.str s => s
  | PyVal.int n => toString n
  | PyVal.bool b => if b then "True" else "False"
  | PyVal.float f => f.rep
  | PyVal.none => "None"

/-- Python float(s) on the plain decimal forms exercised by the pipeline:
optional surrounding whitespace, optional sign, integer digits with an
optional fractional part.  Other CPython float syntax (exponents, inf, nan)
is outside the value space these rows contain and parses to failure here. -/
def pyParseFloat (s : String) : Option Rat :=
  let l := stripChars s.data
  let sign : Rat := if l.headD ('0') = '-' then -1 else 1
  let l1 := if l.headD ('0') = '-' ∨ l.headD ('0') = '+' then l.tail else l
  let ip := l1.takeWhile Char.isDigit
  let r1 := l1.dropWhile Char.isDigit
  match r1 with
  | [] => if ip = [] then Option.none else some (sign * (digitsToNat ip : Rat))
  | '.' :: fr =>
    let fp := fr.takeWhile Char.isDigit
    let r2 := fr.dropWhile Char.isDigit
    if r2 = [] ∧ (ip ≠ [] ∨ fp ≠ []) then
      some (sign * ((digitsToNat ip : Rat) +
        (digitsToNat fp : Rat) / ((10 : Rat) ^ fp.length)))
    else Option.none
  | _ => Option.none

/-- Python int(float) truncates toward zero. -/
def ratTrunc (q : Rat) : Int :=
  if 0 ≤ q then q.floor else q.ceil

/-- The date columns of _insert_or_update_grouped_record (src/data.py:1876). -/
def dateInsertFields : List String :=
  ["date_of_birth", "expected_pregnant_delivery_date", "pregnant_expected_date",
   "process_date"]

/-- The numeric (INT) columns of the grouped insert (src/data.py:1879-1883). -/
def numericInsertFields : List String :=
  ["bp_Systolic_1", "bp_Diastolic_1", "bp_Systolic_2", "bp_Diastolic_2",
   "bp_Systolic_3", "bp_Diastolic_3", "height_cm", "weight_kg",
   "chest_full_inspiration_cm", "chest_full_expiration_cm",
   "waist_circumference_cm", "hips_circumference_cm"]

/-- The decimal columns of the grouped insert (src/data.py:1886). -/
def decimalInsertFields : List String := ["apex_distance_from_midsternal"]

/-- The NULL sentinels of the date branch (src/data.py:1895). -/
def dateNullSentinels : List String :=
  ["", "N/A", "n/a", "NA", "None", "null", "NULL", "-"]

/-- The NULL sentinels of the numeric and decimal branches
(src/data.py:1904 and 1913). -/
def numericNullSentinels : List String := ["", "-", "N/A", "None"]

/-- The first branch of the coercion (src/data.py:1891):
value is None or value equals the empty string or the dash. -/
def isNoneEmptyDash : PyVal → Bool
  | PyVal.none => true
  | PyVal.str s => s == "" || s == "-"
  | _ => false

/-- Numeric branch fallback int(float(str(value))), None on parse failure. -/
def numParse (v : PyVal) : DBVal :=
  match pyParseFloat (pyStr v) with
  | some q => DBVal.int (ratTrunc q)
  | Option.none => DBVal.null

/-- Decimal branch fallback float(str(value)), None on parse failure. -/
def decParse (v : PyVal) : DBVal :=
  match pyParseFloat (pyStr v) with
  | some q => DBVal.float q
  | Option.none => DBVal.null

/-- The per-value coercion loop body of _insert_or_update_grouped_record
(src/data.py:1888-1921). -/
def coerceGroupedValue (column : String) (v : PyVal) : DBVal :=
  if isNoneEmptyDash v then DBVal.null
  else if dateInsertFields.contains column then
    (if dateNullSentinels.contains (pyStrip (pyStr v)) then DBVal.null
     else
       let cd := convert_date_format (pyStr v)
       if cd = "" then DBVal.null else DBVal.str cd)
  else if numericInsertFields.contains column then
    (match v with
     | PyVal.str s =>
       if numericNullSentinels.contains (pyStrip s) then DBVal.null
       else numParse v
     | _ => numParse v)
  else if decimalInsertFields.contains column then
    (match v with
     | PyVal.str s =>
       if numericNullSentinels.contains (pyStrip s) then DBVal.null
       else decParse v
     | _ => decParse v)
  else DBVal.str (pyStr v)

/-- Counterexample to C6 as stated: in a plain text column such as
"occupation", the placeholder sentinel "N/A" is NOT coerced to NULL but kept
verbatim; only the date, numeric and decimal branches map it to NULL. -/
theorem c6_counterexample :
    coerceGroupedValue ("occupation") (PyVal.str ("N/A")) = DBVal.str ("N/A") ∧
    coerceGroupedValue ("occupation") (PyVal.str ("N/A")) ≠ DBVal.null := by
  constructor
  · rfl
  · decide

/-- C6 (amended): before the grouped insert, None, the empty string and the
dash are coerced to NULL in every column; the remaining placeholder sentinels
("N/A", "None", and the date branch's additional spellings) are coerced to
NULL only in the date, numeric and decimal columns, while in every other
column a value outside the None/empty/dash set is bound verbatim as a string. -/
theorem c6_grouped_value_coercion (col : String) (v : PyVal) (s : String) :
    (isNoneEmptyDash v = true → coerceGroupedValue col v = DBVal.null) ∧
    (col ∈ dateInsertFields →
      pyStrip (pyStr v) ∈ dateNullSentinels →
      coerceGroupedValue col v = DBVal.null) ∧
    (col ∉ dateInsertFields → col ∈ numericInsertFields →
      pyStrip s ∈ numericNullSentinels →
      coerceGroupedValue col (PyVal.str s) = DBVal.null) ∧
    (col ∉ dateInsertFields → col ∉ numericInsertFields →
      col ∈ decimalInsertFields →
      pyStrip s ∈ numericNullSentinels →
      coerceGroupedValue col (PyVal.str s) = DBVal.null) ∧
    (col ∉ dateInsertFields → col ∉ numericInsertFields →
      col ∉ decimalInsertFields →
      isNoneEmptyDash v = false →
      coerceGroupedValue col v = DBVal.str (pyStr v)) := by
  refine ⟨?_, ?_, ?_, ?_, ?_⟩
  · intro h1
    simp [coerceGroupedValue, h1]
  · intro h1 h2
    by_cases hv : isNoneEmptyDash v = true <;>
      simp [coerceGroupedValue, hv, h1, h2]
  · intro h1 h2 h3
    by_cases hv : isNoneEmptyDash (PyVal.str s) = true <;>
      simp [coerceGroupedValue, hv, h1, h2, h3]
  · intro h1 h2 h3 h4
    by_cases hv : isNoneEmptyDash (PyVal.str s) = true <;>
      simp [coerceGroupedValue, hv, h1, h2, h3, h4]
  · intro h1 h2 h3 h4
    simp [coerceGroupedValue, h1, h2, h3, h4]

/-- Witness for C6 (amended), one concrete instance per coercing branch. -/
theorem c6_grouped_value_coercion_witness :
    coerceGroupedValue ("occupation") (PyVal.none) = DBVal.null ∧
    coerceGroupedValue ("date_of_birth") (PyVal.str ("N/A")) = DBVal.null ∧
    coerceGroupedValue ("bp_Systolic_1") (PyVal.str ("N/A")) = DBVal.null ∧
    coerceGroupedValue ("apex_distance_from_midsternal") (PyVal.str ("None")) =
      DBVal.null ∧
    coerceGroupedValue ("suburb") (PyVal.str ("N/A")) = DBVal.str ("N/A") :=
  ⟨(c6_grouped_value_coercion ("occupation") (PyVal.none) ("")).1 (by decide),
   (c6_grouped_value_coercion ("date_of_birth") (PyVal.str ("N/A")) ("N/A")).2.1
     (by decide) (by decide),
   (c6_grouped_value_coercion ("bp_Systolic_1") (PyVal.str ("N/A")) ("N/A")).2.2.1
     (by decide) (by decide) (by decide),
   (c6_grouped_value_coercion ("apex_distance_from_midsternal")
       (PyVal.str ("None")) ("None")).2.2.2.1
     (by decide) (by decide) (by decide) (by decide),
   (c6_grouped_value_coercion ("suburb") (PyVal.str ("N/A")) ("N/A")).2.2.2.2
     (by decide) (by decide) (by decide) (by decide)⟩


/-- Substring occurrence test (Python `in` on strings). -/
def strContains (s pat : String) : Bool := decide (2 ≤ (s.splitOn pat).length)

/-- The by-name/by-type column-spec heuristics of _create_table_if_not_exists
(src/data.py:1383-1399). -/
def buildColumnSpec (key : String) (v : PyVal) : String :=
  match v with
  | PyVal.bool _ => "`" ++ key ++ "` BOOLEAN"
  | PyVal.int _ => "`" ++ key ++ "` INT"
  | PyVal.float _ => "`" ++ key ++ "` DECIMAL(10,2)"
  | _ =>
    if key ∈ ["date_of_birth", "expected_pregnant_delivery_date",
        "pregnant_expected_date"] then
      "`" ++ key ++ "` DATE"
    else if key = "reference_number" then
      "`" ++ key ++ "` VARCHAR(50) PRIMARY KEY"
    else if strContains key ("phone") || strContains key ("postcode") then
      "`" ++ key ++ "` VARCHAR(20)"
    else if strContains key ("address") || strContains key ("details") ||
        strContains key ("abnormality") then
      "`" ++ key ++ "` TEXT"
    else
      "`" ++ key ++ "` VARCHAR(25)"

/-- _create_table_if_not_exists (src/data.py:1366-1430).  After building the
column specs, line 1409 reads the name force_recreate, which is defined
nowhere in the function or module, so the function raises NameError before
any CREATE TABLE statement reaches the cursor; the local handler catches only
mysql.connector.Error, so the NameError propagates to the caller.  The result
is the list of SQL statements executed on the cursor paired with the
outcome. -/
def createTableIfNotExists (r : PageBasedMedicalReportData)
    (table_name : String) : List String × Except PyErr Bool :=
  let sample_record := to_csv_records r
  let _column_specs :=
    (sample_record.map (fun kv => buildColumnSpec kv.1 kv.2)) ++
      ["`created_at` TIMESTAMP DEFAULT CURRENT_TIMESTAMP",
       "`updated_at` TIMESTAMP DEFAULT CURRENT_TIMESTAMP ON UPDATE CURRENT_TIMESTAMP",
       "`data_version` INT DEFAULT 1"]
  let _ := table_name
  ([], Except.error (PyErr.nameError ("force_recreate")))

/-- PageBasedMedicalReportData.to_mysql_db (src/data.py:1280-1364), with the
database interactions as outcome parameters: connectOk stands for
mysql.connector.connect succeeding with is_connected() true, insertOk for the
success of _insert_or_update_record.  Every exception out of the body,
including the NameError from _create_table_if_not_exists, hits the broad
except handlers (src/data.py:1348-1357), which return False. -/
def to_mysql_db (r : PageBasedMedicalReportData) (connectOk : Bool)
    (create_table_if_not_exists : Bool) (insertOk : Bool)
    (table_name : String) : Bool :=
  if !connectOk then false
  else
    match (if create_table_if_not_exists then
        (createTableIfNotExists r table_name).2
      else Except.ok true) with
    | Except.error _ => false
    | Except.ok false => false
    | Except.ok true =>
      if to_csv_records r = [] then true
      else insertOk

/-- C10: with table creation enabled (the default) the single-table import can
never succeed: whatever the connection and insert outcomes, the creation
helper raises NameError on the undefined name force_recreate before executing
any CREATE TABLE statement, the outer except handler converts it to a False
return. -/
theorem c10_single_table_import_never_succeeds (r : PageBasedMedicalReportData)
    (connectOk insertOk : Bool) (table_name : String) :
    to_mysql_db r connectOk true insertOk table_name = false ∧
    (createTableIfNotExists r table_name).2 =
      Except.error (PyErr.nameError ("force_recreate")) ∧
    (createTableIfNotExists r table_name).1 = [] := by
  refine ⟨?_, rfl, rfl⟩
  cases connectOk <;> simp [to_mysql_db, createTableIfNotExists]


/-- Per-table import counters (src/data.py:1974-1980). -/
structure TableStats where
  successful : Nat := 0
  failed : Nat := 0
  skipped : Nat := 0
deriving DecidableEq, Repr

/-- The five per-table counter records of batch_import_to_mysql_grouped. -/
structure BatchStats where
  personal_info : TableStats := {}
  medical_history : TableStats := {}
  examination_results : TableStats := {}
  summary : TableStats := {}
  examiner_details : TableStats := {}
deriving DecidableEq, Repr

/-- The initial statistics: all counters zero. -/
def initStats : BatchStats := {}

/-- Outcome of one report's to_mysql_db_grouped call: either an exception or
the per-table success map it returns. -/
inductive GroupedOutcome where
  | raised
  | ok (results : List (String × Bool))

def bumpSuccess (t : TableStats) : TableStats :=
  { t with successful := t.successful + 1 }

def bumpFailed (t : TableStats) : TableStats :=
  { t with failed := t.failed + 1 }

def bumpSkipped (t : TableStats) : TableStats :=
  { t with skipped := t.skipped + 1 }

/-- `for table in table_stats: skipped += 1` (src/data.py:1995-1996). -/
def bumpSkippedAll (s : BatchStats) : BatchStats :=
  { personal_info := bumpSkipped s.personal_info,
    medical_history := bumpSkipped s.medical_history,
    examination_results := bumpSkipped s.examination_results,
    summary := bumpSkipped s.summary,
    examiner_details := bumpSkipped s.examiner_details }

/-- `for table in table_stats: failed += 1` (src/data.py:2023-2024). -/
def bumpFailedAll (s : BatchStats) : BatchStats :=
  { personal_info := bumpFailed s.personal_info,
    medical_history := bumpFailed s.medical_history,
    examination_results := bumpFailed s.examination_results,
    summary := bumpFailed s.summary,
    examiner_details := bumpFailed s.examiner_details }

/-- One entry of the results map applied to the counters
(src/data.py:2014-2019): tables not in table_stats are ignored. -/
def applyOne (st : BatchStats) (tn : String) (ok : Bool) : BatchStats :=
  if tn = "personal_info" then
    { st with personal_info :=
        if ok then bumpSuccess st.personal_info else bumpFailed st.personal_info }
  else if tn = "medical_history" then
    { st with medical_history :=
        if ok then bumpSuccess st.medical_history else bumpFailed st.medical_history }
  else if tn = "examination_results" then
    { st with examination_results :=
        if ok then bumpSuccess st.examination_results
        else bumpFailed st.examination_results }
  else if tn = "summary" then
    { st with summary :=
        if ok then bumpSuccess st.summary else bumpFailed st.summary }
  else if tn = "examiner_details" then
    { st with examiner_details :=
        if ok then bumpSuccess st.examiner_details else bumpFailed st.examiner_details }
  else st

/-- The loop over results.items() of one report. -/
def applyResults (st : BatchStats) (results : List (String × Bool)) : BatchStats :=
  results.foldl (fun a kv => applyOne a kv.1 kv.2) st

/-- The try-block body for one report of the batch loop
(src/data.py:1991-2024): skip (counting skipped per table) on an empty
reference number, otherwise consult the import outcome; an exception counts
as failed for every table. -/
def importStep (imp : PageBasedMedicalReportData → Bool → GroupedOutcome)
    (frtFlag : Bool) (st : BatchStats) (r : PageBasedMedicalReportData) :
    BatchStats :=
  if refNum r = "" then bumpSkippedAll st
  else
    match imp r frtFlag with
    | GroupedOutcome.raised => bumpFailedAll st
    | GroupedOutcome.ok results => applyResults st results

/-- The fixed-size chunks of `reports[i:i + batch_size]`
(src/data.py:1987-1988); Python's range step raises for batch_size = 0, so
the claims assume batch_size ≥ 1, where this produces the same chunks. -/
def chunksOf {α : Type} (bs : Nat) : List α → List (List α)
  | [] => []
  | x :: xs => (x :: xs.take (bs - 1)) :: chunksOf bs (xs.drop (bs - 1))
termination_by l => l.length
decreasing_by simp [List.length_drop]; omega

/-- batch_import_to_mysql_grouped (src/data.py:1955-2031).  The per-report
to_mysql_db_grouped call is the oracle imp, receiving the report and the
force_recreate_tables value passed for it, namely
force_recreate_tables and is_first_report where is_first_report is
(i == 0 and report == batch[0]). -/
def batch_import_to_mysql_grouped
    (imp : PageBasedMedicalReportData → Bool → GroupedOutcome)
    (force_recreate_tables : Bool) (batch_size : Nat)
    (reports : List PageBasedMedicalReportData) : BatchStats :=
  if reports = [] then initStats
  else
    match chunksOf batch_size reports with
    | [] => initStats
    | c0 :: rest =>
      let first := c0.headD emptyReport
      let s1 := c0.foldl
        (fun st r =>
          importStep imp (force_recreate_tables && (r == first)) st r)
        initStats
      rest.foldl (fun st c =>
        c.foldl (fun st2 r => importStep imp false st2 r) st) s1

/-- Componentwise sums of counters, to express that each report contributes a
fixed, position-independent delta. -/
def addTS (a b : TableStats) : TableStats :=
  { successful := a.successful + b.successful,
    failed := a.failed + b.failed,
    skipped := a.skipped + b.skipped }

def addBS (a b : BatchStats) : BatchStats :=
  { personal_info := addTS a.personal_info b.personal_info,
    medical_history := addTS a.medical_history b.medical_history,
    examination_results := addTS a.examination_results b.examination_results,
    summary := addTS a.summary b.summary,
    examiner_details := addTS a.examiner_details b.examiner_details }

/-- The contribution of a skipped report: one skipped in each table. -/
def skippedDelta : BatchStats := bumpSkippedAll initStats

/-- The five skipped counters, in table order. -/
def skippedCounts (s : BatchStats) : List Nat :=
  [s.personal_info.skipped, s.medical_history.skipped,
   s.examination_results.skipped, s.summary.skipped,
   s.examiner_details.skipped]

theorem chunksOf_flatten {α : Type} (bs : Nat) (l : List α) :
    (chunksOf bs l).flatten = l := by
  induction l using chunksOf.induct bs with
  | case1 => simp [chunksOf]
  | case2 x xs ih =>
    rw [chunksOf]
    simp only [List.flatten_cons]
    rw [ih]
    simp [List.cons_append, List.take_append_drop]

theorem addBS_init (a : BatchStats) : addBS a initStats = a := by
  simp [addBS, addTS, initStats]

theorem bumpSkippedAll_add (a b : BatchStats) :
    bumpSkippedAll (addBS a b) = addBS a (bumpSkippedAll b) := by
  simp [bumpSkippedAll, addBS, addTS, bumpSkipped, Nat.add_assoc]

theorem bumpFailedAll_add (a b : BatchStats) :
    bumpFailedAll (addBS a b) = addBS a (bumpFailedAll b) := by
  simp [bumpFailedAll, addBS, addTS, bumpFailed, Nat.add_assoc]

theorem applyOne_add (a b : BatchStats) (tn : String) (ok : Bool) :
    applyOne (addBS a b) tn ok = addBS a (applyOne b tn ok) := by
  unfold applyOne
  split_ifs <;> cases ok <;>
    simp [addBS, addTS, bumpSuccess, bumpFailed, Nat.add_assoc]

theorem applyResults_add (a : BatchStats) (results : List (String × Bool)) :
    ∀ b, applyResults (addBS a b) results = addBS a (applyResults b results) := by
  induction results with
  | nil =>
    intro b
    rfl
  | cons kv rest ih =>
    intro b
    simp only [applyResults, List.foldl_cons] at ih ⊢
    rw [applyOne_add]
    exact ih _

theorem bumpSkippedAll_eq (st : BatchStats) :
    bumpSkippedAll st = addBS st (bumpSkippedAll initStats) := by
  simp [bumpSkippedAll, addBS, addTS, bumpSkipped, initStats]

theorem bumpFailedAll_eq (st : BatchStats) :
    bumpFailedAll st = addBS st (bumpFailedAll initStats) := by
  simp [bumpFailedAll, addBS, addTS, bumpFailed, initStats]

/-- Each report's contribution to the counters is a delta independent of the
counters accumulated so far. -/
theorem importStep_add (imp : PageBasedMedicalReportData → Bool → GroupedOutcome)
    (flag : Bool) (st : BatchStats) (r : PageBasedMedicalReportData) :
    importStep imp flag st r = addBS st (importStep imp flag initStats r) := by
  unfold importStep
  by_cases href : refNum r = ""
  · rw [if_pos href, if_pos href]
    exact bumpSkippedAll_eq st
  · rw [if_neg href, if_neg href]
    cases imp r flag with
    | raised => exact bumpFailedAll_eq st
    | ok results =>
      have h2 := applyResults_add st results initStats
      rw [addBS_init] at h2
      exact h2


theorem skippedCounts_applyOne (st : BatchStats) (tn : String) (ok : Bool) :
    skippedCounts (applyOne st tn ok) = skippedCounts st := by
  unfold applyOne
  split_ifs <;> cases ok <;> simp [skippedCounts, bumpSuccess, bumpFailed]

theorem skippedCounts_applyResults (results : List (String × Bool)) :
    ∀ st, skippedCounts (applyResults st results) = skippedCounts st := by
  induction results with
  | nil =>
    intro st
    rfl
  | cons kv rest ih =>
    intro st
    simp only [applyResults, List.foldl_cons] at ih ⊢
    rw [ih, skippedCounts_applyOne]

theorem skippedCounts_step (imp : PageBasedMedicalReportData → Bool → GroupedOutcome)
    (flag : Bool) (st : BatchStats) (r : PageBasedMedicalReportData) :
    skippedCounts (importStep imp flag st r) =
      (skippedCounts st).map
        (fun n => n + (if refNum r == "" then 1 else 0)) := by
  unfold importStep
  by_cases href : refNum r = ""
  · rw [if_pos href]
    simp [skippedCounts, bumpSkippedAll, bumpSkipped, href]
  · rw [if_neg href]
    have hbeq : (refNum r == "") = false := by simp [href]
    cases imp r flag with
    | raised => simp [skippedCounts, bumpFailedAll, bumpFailed, hbeq]
    | ok results =>
      rw [skippedCounts_applyResults]
      simp [hbeq]

theorem skippedCounts_fold (imp : PageBasedMedicalReportData → Bool → GroupedOutcome)
    (l : List PageBasedMedicalReportData) :
    ∀ st, skippedCounts (l.foldl (fun a r => importStep imp false a r) st) =
      (skippedCounts st).map
        (fun n => n + l.countP (fun r => refNum r == "")) := by
  induction l with
  | nil =>
    intro st
    simp
  | cons r rest ih =>
    intro st
    simp only [List.foldl_cons, List.countP_cons]
    rw [ih, skippedCounts_step, List.map_map]
    congr 1
    funext n
    cases refNum r == "" <;> simp <;> omega

/-- C9: with force_recreate_tables off (its default), the grouped batch import
is a per-report fold: the final statistics are the sum of one fixed delta per
report, independent of the report's position and of the other reports'
outcomes; a report with an empty reference number contributes exactly one
skipped to each of the five tables without consulting the import at all, so
the skipped counter of every table equals the number of empty-reference
reports, and every other report is attempted with its own outcome. -/
theorem c9_batch_skip_independent
    (imp : PageBasedMedicalReportData → Bool → GroupedOutcome)
    (batch_size : Nat) (reports : List PageBasedMedicalReportData)
    (hbs : 1 ≤ batch_size) :
    batch_import_to_mysql_grouped imp false batch_size reports =
      reports.foldl (fun st r => importStep imp false st r) initStats ∧
    (∀ st r, importStep imp false st r =
      addBS st (importStep imp false initStats r)) ∧
    (∀ (imp2 : PageBasedMedicalReportData → Bool → GroupedOutcome) r,
      refNum r = "" → importStep imp2 false initStats r = skippedDelta) ∧
    skippedCounts (batch_import_to_mysql_grouped imp false batch_size reports) =
      List.replicate 5 (reports.countP (fun r => refNum r == "")) := by
  have h1 : batch_import_to_mysql_grouped imp false batch_size reports =
      reports.foldl (fun st r => importStep imp false st r) initStats := by
    by_cases hrep : reports = []
    · subst hrep
      simp [batch_import_to_mysql_grouped]
    · unfold batch_import_to_mysql_grouped
      rw [if_neg hrep]
      rcases hch : chunksOf batch_size reports with _ | ⟨c0, rest⟩
      · have hfl := chunksOf_flatten batch_size reports
        rw [hch] at hfl
        simp only [List.flatten_nil] at hfl
        exact absurd hfl.symm hrep
      · simp only [Bool.false_and]
        have hfl := chunksOf_flatten batch_size reports
        rw [hch] at hfl
        conv_rhs => rw [← hfl]
        rw [List.foldl_flatten]
        simp [List.foldl_cons]
  refine ⟨h1, importStep_add imp false, ?_, ?_⟩
  · intro imp2 r href
    unfold importStep
    rw [if_pos href]
    rfl
  · rw [h1, skippedCounts_fold]
    simp [skippedCounts, initStats, List.replicate]

/-- Witness for C9: three reports, the middle one without a reference number,
yield skipped = 1 in every table. -/
theorem c9_batch_skip_independent_witness :
    (1 : Nat) ≤ 100 ∧
    skippedCounts
        (batch_import_to_mysql_grouped
          (fun _ _ => GroupedOutcome.ok
            [("personal_info", true), ("medical_history", true),
             ("examination_results", true), ("summary", true),
             ("examiner_details", true)])
          false 100 [sampleReport, emptyReport, sampleReport]) =
      List.replicate 5 1 := by
  have h := c9_batch_skip_independent
    (fun _ _ => GroupedOutcome.ok
      [("personal_info", true), ("medical_history", true),
       ("examination_results", true), ("summary", true),
       ("examiner_details", true)])
    100 [sampleReport, emptyReport, sampleReport] (by decide)
  refine ⟨by decide, ?_⟩
  rw [h.2.2.2]
  decide

end LocalLLMOCR
